import Mathlib

/-!
Verification of the granola-sync repository (granola_sync.py and
granola_transcripts.py) against its natural-language specification.

The Python code is shallowly embedded: dictionaries with known keys become
structures with `Option` fields (a `.get` with a default is folded into a
getter applying that default), Python strings are `String` manipulated
through their `List Char` data (the ASCII fragment of Python's `\w`, `\s`,
`str.lower`, `str.strip` and `str.split` semantics; the repository's data
only exercises this fragment), the filesystem and the tracking ledger are
association lists from path / id to content / entry, mirroring Python dict
insertion-order semantics, and `datetime.now()` values are passed in as
parameters.  All definitions are executable structural recursions.
-/

/-! ## Python primitive helpers -/

/-- Truthiness of an optional string (Python: `None` and `""` are falsy). -/
def pyTruthyS (o : Option String) : Bool :=
  match o with
  | none => false
  | some s => s != ""

/-- Python `a or b` for an optional string `a` and a string default `b`. -/
def pyOrStr (a : Option String) (b : String) : String :=
  if pyTruthyS a then a.getD "" else b

/-- Lowercase a string (model of Python `str.lower`, ASCII fragment). -/
def lowerStr (s : String) : String :=
  String.mk (s.data.map Char.toLower)

/-- Drop leading and trailing whitespace from a character list. -/
def stripChars (l : List Char) : List Char :=
  ((l.dropWhile Char.isWhitespace).reverse.dropWhile Char.isWhitespace).reverse

/-- Model of Python `str.strip()`. -/
def stripStr (s : String) : String :=
  String.mk (stripChars s.data)

/-- Count whitespace-separated tokens; the flag records whether the scan is
currently inside a token.  `countTokens false s.data` is `len(s.split())`. -/
def countTokens : Bool → List Char → Nat
  | _, [] => 0
  | inTok, c :: rest =>
    if c.isWhitespace then countTokens false rest
    else if inTok then countTokens true rest
    else 1 + countTokens true rest

/-- Model of Python `len(s.split())`: number of whitespace-separated tokens. -/
def pyWordCount (s : String) : Nat := countTokens false s.data

/-- Predicate `leadsList n h`: holds when `n` is an initial run of `h`. -/
def leadsList : List Char → List Char → Bool
  | [], _ => true
  | _ :: _, [] => false
  | a :: as, b :: bs => a == b && leadsList as bs

/-- Predicate `inList n h`: holds when `n` occurs contiguously inside `h`. -/
def inList : List Char → List Char → Bool
  | n, [] => n.isEmpty
  | n, c :: rest => leadsList n (c :: rest) || inList n rest

/-- Model of Python `needle in hay` substring membership. -/
def pyIn (needle hay : String) : Bool := inList needle.data hay.data

/-- Join a list of strings with a separator (Python `sep.join(lines)`). -/
def joinSep (sep : String) : List String → String
  | [] => ""
  | [x] => x
  | x :: y :: rest => x ++ sep ++ joinSep sep (y :: rest)

/-- Path join (model of `os.path.join` for the paths this program builds). -/
def pjoin (a b : String) : String := a ++ "/" ++ b

/-! ## Data model: segments, documents, cache state -/

/-- One transcript segment record; both fields may be absent in the cache.
`text` is read as `e.get('text', '')`, `source` as `e.get('source', 'unknown')`. -/
structure Segment where
  text : Option String := none
  source : Option String := none

def Segment.getText (e : Segment) : String := e.text.getD ""

def Segment.getSource (e : Segment) : String := e.source.getD "unknown"

/-- The `people` annotation: a dict whose only read key is `title`.
A non-dict or absent `people` value is modelled as `none` (the code's
`isinstance(people, dict)` guard makes both behave identically). -/
structure People where
  title : Option String := none

/-- The `google_calendar_event` annotation: only `summary` is read. -/
structure CalEvent where
  summary : Option String := none

/-- Document metadata, with every read key as an optional field. -/
structure Doc where
  id : Option String := none
  title : Option String := none
  meeting_end_count : Option Int := none
  start_time : Option String := none
  startTime : Option String := none
  created_at : Option String := none
  people : Option People := none
  google_calendar_event : Option CalEvent := none

/-- The empty document dict used when `doc_lookup.get(doc_id, {})` misses. -/
def emptyDoc : Doc := {}

/-- The parsed `state` mapping: `transcripts` (id -> segment list, in dict
insertion order) and `documents` normalized to a by-id association list. -/
structure CacheState where
  transcripts : List (String × List Segment)
  documents : List (String × Doc)

/-- Association-list lookup (Python `m.get(k)`). -/
def aget {α : Type} (m : List (String × α)) (k : String) : Option α :=
  (m.find? (fun p => p.1 == k)).map (fun p => p.2)

/-- Association-list update (Python `m[k] = v`): overwrite in place when the
key is present, else append, mirroring dict insertion-order semantics. -/
def aset {α : Type} (m : List (String × α)) (k : String) (v : α) : List (String × α) :=
  if m.any (fun p => p.1 == k) then
    m.map (fun p => if p.1 == k then (k, v) else p)
  else m ++ [(k, v)]

/-- Association-list removal (Python `del` / `os.remove` on a path map). -/
def aremove {α : Type} (m : List (String × α)) (k : String) : List (String × α) :=
  m.filter (fun p => p.1 != k)

/-! ## granola_sync.py: word count and completion filter -/

/-- The word-count expression shared by `is_meeting_done` and `build_content`:
`sum(len(e.get('text', '').split()) for e in entries) if entries else 0`. -/
def wordCountEntries (entries : List Segment) : Nat :=
  if entries.isEmpty then 0
  else (entries.map (fun e => pyWordCount e.getText)).sum

/-- Truthiness of `meeting_end_count` (Python: `None` and `0` are falsy). -/
def pyTruthyI (o : Option Int) : Bool :=
  match o with
  | none => false
  | some n => n != 0

/-- Function `is_meeting_done(doc, entries)` from granola_sync.py (lines 73-85). -/
def is_meeting_done (doc : Doc) (entries : List Segment) : Bool :=
  let end_count := doc.meeting_end_count
  let title := doc.title
  let word_count := wordCountEntries entries
  if !(pyTruthyI end_count) || end_count.getD 0 < 1 then false
  else if !(pyTruthyS title) then false
  else if word_count < 50 then false
  else true

/-! ## granola_sync.py: classifier -/

/-- The module-level `CLIENT_ROUTES` table, in source (insertion) order. -/
def CLIENT_ROUTES : List (List String × String) :=
  [(["acme", "acme corp", "jane"], "Acme-Corp"),
   (["internal", "standup", "retro"], "Internal")]

/-- The lowercase search text built at the top of `match_client`:
`(title or "").lower()`, extended with `" " + people['title'].lower()` when a
people dict with a truthy title is present. -/
def search_text (title : Option String) (people : Option People) : String :=
  let st := lowerStr (pyOrStr title "")
  match people with
  | some p =>
    let pt := p.title.getD ""
    if pt != "" then st ++ " " ++ lowerStr pt else st
  | none => st

/-- The route-scanning loop of `match_client`: first entry (in table order)
with some keyword occurring as a substring of the search text wins. -/
def matchLoop : List (List String × String) → String → Option String
  | [], _ => none
  | (keywords, folder) :: rest, st =>
    if keywords.any (fun kw => pyIn kw st) then some folder
    else matchLoop rest st

/-- Function `match_client(title, people)` from granola_sync.py (lines 88-101), with
the routing table made an explicit argument (the source reads the module
global `CLIENT_ROUTES`). -/
def match_client (routes : List (List String × String))
    (title : Option String) (people : Option People) : Option String :=
  matchLoop routes (search_text title people)

/-! ## granola_sync.py: renderer -/

/-- The speaker label emitted on a source change (note the trailing space). -/
def fmtLabelSync (source : String) : String :=
  if source == "microphone" then "\n**[You]** "
  else if source == "system" then "\n**[Other]** "
  else "\n**[" ++ source ++ "]** "

/-- The accumulation loop of granola_sync.py's `format_transcript`:
`cur` is `current_source` (initially `None`). -/
def fmtLinesSync : Option String → List Segment → List String
  | _, [] => []
  | cur, e :: rest =>
    let text := stripStr e.getText
    let source := e.getSource
    if text == "" then fmtLinesSync cur rest
    else if some source != cur then
      fmtLabelSync source :: (text :: fmtLinesSync (some source) rest)
    else text :: fmtLinesSync cur rest

/-- Function `format_transcript(entries)` from granola_sync.py (lines 111-134). -/
def format_transcript (entries : List Segment) : String :=
  joinSep " " (fmtLinesSync none entries)

/-! ## granola_sync.py: filename derivation -/

/-- Model of regex `\w` (ASCII fragment): letters, digits, underscore. -/
def isWordChar (c : Char) : Bool := c.isAlphanum || c == '_'

/-- Collapse runs of hyphens to a single hyphen (`re.sub(r'-+', '-', s)`);
the flag records whether the previous emitted character was a hyphen. -/
def collapseGo : Bool → List Char → List Char
  | _, [] => []
  | prevHyphen, c :: rest =>
    if c == '-' then
      if prevHyphen then collapseGo true rest
      else '-' :: collapseGo true rest
    else c :: collapseGo false rest

/-- The sanitized-title pipeline of `make_filename`:
`re.sub(r'[^\w\s-]', '', title)[:60].strip().replace(' ', '-')` followed by
`re.sub(r'-+', '-', ...)`, at the character-list level. -/
def sanitizeTitle (title : String) : List Char :=
  let s1 := title.data.filter (fun c => isWordChar c || c.isWhitespace || c == '-')
  let s2 := s1.take 60
  let s3 := stripChars s2
  let s4 := s3.map (fun c => if c == ' ' then '-' else c)
  collapseGo false s4

/-- Function `make_filename(date_str, title)` from granola_sync.py (lines 137-141). -/
def make_filename (date_str title : String) : String :=
  date_str ++ "-" ++ String.mk (sanitizeTitle title) ++ ".md"

/-! ## granola_sync.py: content builder and date prefix -/

/-- Function `build_content(title, doc, entries)` from granola_sync.py (lines 144-163). -/
def build_content (title : String) (doc : Doc) (entries : List Segment) : String :=
  let start_time := pyOrStr doc.start_time (pyOrStr doc.startTime (pyOrStr doc.created_at ""))
  let word_count := wordCountEntries entries
  let doc_id := doc.id.getD "unknown"
  let cal_title :=
    match doc.google_calendar_event with
    | some ev => ev.summary.getD ""
    | none => ""
  "# " ++ title ++ "\n\n"
    ++ "**Meeting ID:** " ++ doc_id ++ "\n"
    ++ (if cal_title != "" && cal_title != title then "**Calendar:** " ++ cal_title ++ "\n" else "")
    ++ "**Date:** " ++ (if start_time != "" then start_time else "Unknown") ++ "\n"
    ++ "**Words:** ~" ++ toString word_count ++ "\n"
    ++ "**Segments:** " ++ toString entries.length ++ "\n\n"
    ++ "---\n\n"
    ++ format_transcript entries

/-- The date-extraction function of granola_sync.py (lines 166-174, named
`get_date_` followed by the obvious suffix in the source); `today` stands for
`datetime.now().strftime('%Y-%m-%d')`. -/
def dateOfDoc (today : String) (doc : Doc) : String :=
  let start_time := pyOrStr doc.start_time (pyOrStr doc.startTime (pyOrStr doc.created_at ""))
  if start_time != "" && 10 <= start_time.data.length then String.mk (start_time.data.take 10)
  else today

/-! ## granola_sync.py: tracking ledger and filesystem model -/

/-- One tracking-ledger entry, with the `.get` defaults of the source folded
in: `tracked.get('file')` and `tracked.get('title')` read `none` when absent,
`tracked.get('routed', False)` reads `false`, `client` is only read after the
entry was written by this program.  The legacy-stub shape is
`{synced_at := "unknown", routed := false, file := none}`. -/
structure TrackEntry where
  synced_at : String := "unknown"
  routed : Bool := false
  client : Option String := none
  file : Option String := none
  title : Option String := none

/-- Paths: `INBOX_DIR` of the source with `~` left unexpanded. -/
def INBOX_DIR : String := "~/granola-transcripts/inbox"

/-- Path `CLIENTS_DIR` of the source with `~` left unexpanded. -/
def CLIENTS_DIR : String := "~/granola-transcripts/clients"

/-- Function `get_client_call_notes_dir(client_folder)` (lines 104-108); the
`os.makedirs` call has no observable effect in the path-to-content model. -/
def get_client_call_notes_dir (client_folder : String) : String :=
  pjoin (pjoin CLIENTS_DIR client_folder) "call-notes"

/-- The filesystem as a path-to-content association list. -/
abbrev FS := List (String × String)

def fsExists (fs : FS) (p : String) : Bool := fs.any (fun e => e.1 == p)

def fsWrite (fs : FS) (p c : String) : FS := aset fs p c

def fsRemove (fs : FS) (p : String) : FS := aremove fs p

/-- The mutable state threaded through one `sync_transcripts` run: the
in-memory tracking dict, the filesystem, and the three action counters. -/
structure SyncState where
  tracking : List (String × TrackEntry)
  files : FS
  new_count : Nat
  routed_count : Nat
  updated_count : Nat

/-- The first transition guard of the orchestrator (line 219):
`not was_routed and client_folder and old_file`. -/
def b1cond (tracked : TrackEntry) (client_folder : Option String) : Bool :=
  !tracked.routed && pyTruthyS client_folder && pyTruthyS tracked.file

/-- The second transition guard (line 236):
`old_file and tracked.get('title') != title`. -/
def b2cond (tracked : TrackEntry) (title : String) : Bool :=
  pyTruthyS tracked.file && tracked.title != some title

/-- The loop-local `title = doc.get('title', 'Untitled Meeting')` (line 200). -/
def syncTitle (doc : Doc) : String := doc.title.getD "Untitled Meeting"

/-- The loop-local `client_folder = match_client(title, people)` (lines 202-203). -/
def syncClientFolder (routes : List (List String × String)) (doc : Doc) : Option String :=
  match_client routes (some (syncTitle doc)) doc.people

/-- The loop-local `dest_dir` (lines 205-208). -/
def syncDestDir (routes : List (List String × String)) (doc : Doc) : String :=
  match syncClientFolder routes doc with
  | some c => get_client_call_notes_dir c
  | none => INBOX_DIR

/-- The loop-local `filename = make_filename(date_prefix, title)` (line 210). -/
def syncFilename (today : String) (doc : Doc) : String :=
  make_filename (dateOfDoc today doc) (syncTitle doc)

/-- The loop-local `filepath = os.path.join(dest_dir, filename)` (line 211). -/
def syncFilepath (routes : List (List String × String)) (today : String) (doc : Doc) : String :=
  pjoin (syncDestDir routes doc) (syncFilename today doc)

/-- One iteration of the `for doc_id, entries in transcripts.items()` loop of
`sync_transcripts` (lines 191-271).  `doc` is `doc_lookup.get(doc_id, {})`;
`now` stands for `datetime.now().isoformat()` and `today` for the current
date used by the date-prefix fallback.  The loop-local variables are the
named definitions above. -/
def syncOne (routes : List (List String × String)) (now today : String)
    (doc : Doc) (doc_id : String) (entries : List Segment)
    (s : SyncState) : SyncState :=
  if entries.isEmpty then s
  else if !(is_meeting_done doc entries) then s
  else
    let title := syncTitle doc
    let client_folder := syncClientFolder routes doc
    let dest_dir := syncDestDir routes doc
    let filename := syncFilename today doc
    let filepath := syncFilepath routes today doc
    match aget s.tracking doc_id with
    | some tracked =>
      if b1cond tracked client_folder then
        let old_path := pjoin INBOX_DIR (tracked.file.getD "")
        if fsExists s.files old_path then
          let content := build_content title doc entries
          { s with
            tracking := aset s.tracking doc_id
              { synced_at := now, routed := true, client := client_folder,
                file := some filename, title := some title },
            files := fsRemove (fsWrite s.files filepath content) old_path,
            routed_count := s.routed_count + 1 }
        else s
      else if b2cond tracked title then
        let old_path := pjoin (if tracked.routed then dest_dir else INBOX_DIR) (tracked.file.getD "")
        if fsExists s.files old_path then
          let content := build_content title doc entries
          let files1 := fsWrite s.files filepath content
          { s with
            tracking := aset s.tracking doc_id
              { synced_at := now, routed := tracked.routed,
                client := if tracked.routed then client_folder else none,
                file := some filename, title := some title },
            files := if old_path != filepath then fsRemove files1 old_path else files1,
            updated_count := s.updated_count + 1 }
        else s
      else s
    | none =>
      let content := build_content title doc entries
      { s with
        tracking := aset s.tracking doc_id
          { synced_at := now, routed := pyTruthyS client_folder, client := client_folder,
            file := some filename, title := some title },
        files := fsWrite s.files filepath content,
        new_count := s.new_count + 1 }

/-- Function `sync_transcripts()` (lines 177-287) as a function of the cache state,
the in-memory tracking loaded from the ledger, and the filesystem; the
counters start at zero and the final `save_tracking` writes back
`.tracking` of the result. -/
def sync_transcripts (routes : List (List String × String)) (now today : String)
    (cache : CacheState) (tracking0 : List (String × TrackEntry)) (files0 : FS) : SyncState :=
  cache.transcripts.foldl
    (fun s p => syncOne routes now today ((aget cache.documents p.1).getD emptyDoc) p.1 p.2 s)
    { tracking := tracking0, files := files0,
      new_count := 0, routed_count := 0, updated_count := 0 }

/-- Decision mirror of one `syncOne` iteration for an eligible transcript:
`true` when the iteration will take no action on state `(tracking, files)` —
the transcript is tracked and each transition guard is either false or
blocked by a missing old file.  Used to state when a run is a no-op. -/
def noPending (routes : List (List String × String)) (doc : Doc)
    (doc_id : String) (tracking : List (String × TrackEntry)) (files : FS) : Bool :=
  match aget tracking doc_id with
  | none => false
  | some tracked =>
    if b1cond tracked (syncClientFolder routes doc) then
      !(fsExists files (pjoin INBOX_DIR (tracked.file.getD "")))
    else if b2cond tracked (syncTitle doc) then
      !(fsExists files
        (pjoin (if tracked.routed then syncDestDir routes doc else INBOX_DIR)
          (tracked.file.getD "")))
    else true

/-! ## granola_sync.py / granola_transcripts.py: cache reader -/

/-- JSON values, as returned by Python's `json` module. -/
inductive JVal where
  | null : JVal
  | bool (b : Bool) : JVal
  | num (n : Int) : JVal
  | str (s : String) : JVal
  | arr (elems : List JVal) : JVal
  | obj (fields : List (String × JVal)) : JVal

/-- The outcome of `open(CACHE_PATH)` followed by `json.load`: the file may
be missing/unreadable, hold text that is not valid JSON, or parse to a value. -/
inductive CacheFileInput where
  | missing : CacheFileInput
  | unparsable : CacheFileInput
  | parsed (data : JVal) : CacheFileInput

/-- Python subscript `data[k]` on a parsed JSON value: defined only on an
object containing the key (otherwise `KeyError` / `TypeError` is raised). -/
def jGet (v : JVal) (k : String) : Option JVal :=
  match v with
  | .obj fields => (fields.find? (fun p => p.1 == k)).map (fun p => p.2)
  | _ => none

/-- Function `load_cache()` — identical in granola_sync.py (lines 47-53) and
granola_transcripts.py (lines 26-32).  `parseJson` stands for `json.loads`
on the nested string (`none` = decode error); `none` overall means the call
raises.  `data['cache']` raises unless `data` is an object with the key;
`json.loads` raises unless that value is a string that parses; and
`cache.get('state', {})` raises (`AttributeError`) unless the inner value is
an object — but a missing `state` key silently yields the empty object. -/
def jAsStr : JVal → Option String
  | .str s => some s
  | _ => none

/-- Shape check for `.get` access: defined only on objects
(`AttributeError` otherwise). -/
def jAsObj : JVal → Option (List (String × JVal))
  | .obj fields => some fields
  | _ => none

def load_cache (parseJson : String → Option JVal) : CacheFileInput → Option JVal
  | .missing => none
  | .unparsable => none
  | .parsed data =>
    (jGet data "cache").bind (fun v =>
      (jAsStr v).bind (fun s =>
        (parseJson s).bind (fun cache =>
          (jAsObj cache).map (fun fields =>
            (((fields.find? (fun p => p.1 == "state")).map (fun p => p.2))).getD (.obj [])))))

/-! ## granola_transcripts.py: query/export tool -/

/-- One record of `get_transcripts_with_docs` (lines 35-55). -/
structure TransRec where
  id : String
  title : String
  start_time : Option String
  entries : List Segment
  word_count : Nat

/-- Lexicographic strict order on character lists (Python string `<`). -/
def charListLt : List Char → List Char → Bool
  | [], [] => false
  | [], _ :: _ => true
  | _ :: _, [] => false
  | a :: as, b :: bs => a < b || (a == b && charListLt as bs)

/-- Python string `<=`, used through the sort key comparison. -/
def strLeB (a b : String) : Bool := a == b || charListLt a.data b.data

/-- The sort key of line 55: `x.get('start_time') or ''`. -/
def sortKey (t : TransRec) : String := t.start_time.getD ""

/-- Stable descending insertion: a later element is placed after any earlier
element with an equal key (Python `sorted(..., reverse=True)` is stable). -/
def insertDesc (x : TransRec) : List TransRec → List TransRec
  | [] => [x]
  | y :: ys => if strLeB (sortKey y) (sortKey x) then x :: y :: ys else y :: insertDesc x ys

/-- Stable sort, descending by `sortKey` (model of line 55's `sorted`). -/
def sortDescByStart : List TransRec → List TransRec
  | [] => []
  | x :: xs => insertDesc x (sortDescByStart xs)

/-- Function `get_transcripts_with_docs(state)` from granola_transcripts.py
(lines 35-55): skip empty segment lists, default the title, take
`start_time or startTime` (first truthy), compute the word count, and sort
by start time descending. -/
def get_transcripts_with_docs (state : CacheState) : List TransRec :=
  let results := (state.transcripts.filter (fun p => !p.2.isEmpty)).map (fun p =>
    let doc := (aget state.documents p.1).getD emptyDoc
    { id := p.1,
      title := doc.title.getD "Untitled Meeting",
      start_time := if pyTruthyS doc.start_time then doc.start_time else doc.startTime,
      entries := p.2,
      word_count := (p.2.map (fun e => pyWordCount e.getText)).sum : TransRec })
  sortDescByStart results

/-- The accumulation loop of granola_transcripts.py's `format_transcript`
(lines 58-79): like the sync renderer but labels carry no trailing space and
an unknown source gets no label at all (while still updating
`current_source`). -/
def fmtLinesCli : Option String → List Segment → List String
  | _, [] => []
  | cur, e :: rest =>
    let text := stripStr e.getText
    let source := e.getSource
    if text == "" then fmtLinesCli cur rest
    else if some source != cur then
      (if source == "microphone" then ["\n**[You]**"]
       else if source == "system" then ["\n**[Other]**"]
       else []) ++ (text :: fmtLinesCli (some source) rest)
    else text :: fmtLinesCli cur rest

/-- Function `format_transcript(entries)` from granola_transcripts.py (lines 58-79). -/
def format_transcript_cli (entries : List Segment) : String :=
  joinSep " " (fmtLinesCli none entries)

/-- The selection predicate of `show_transcript` (line 107):
`t['id'] == doc_id or doc_id.lower() in t['title'].lower()`. -/
def showPred (doc_id : String) (t : TransRec) : Bool :=
  t.id == doc_id || pyIn (lowerStr doc_id) (lowerStr t.title)

/-- The `for t in transcripts: ... return` loop of `show_transcript`. -/
def showFind (doc_id : String) : List TransRec → Option TransRec
  | [] => none
  | t :: rest => if showPred doc_id t then some t else showFind doc_id rest

/-- Function `show_transcript(doc_id)` from granola_transcripts.py (lines 101-114),
returning the record whose transcript gets printed (`none` = "not found"). -/
def show_transcript (state : CacheState) (doc_id : String) : Option TransRec :=
  showFind doc_id (get_transcripts_with_docs state)

/-! ## Concrete example data used by witnesses and counterexamples -/

/-- A 50-token text (Python `len(fiftyWords.split()) == 50`). -/
def fiftyWords : String := joinSep " " (List.replicate 50 "w")

/-- A short document with an ended meeting and a title. -/
def c1doc : Doc := { title := some "T", meeting_end_count := some 1 }

/-- A 50-word segment (passes the completion filter's length check). -/
def seg50 : Segment := { text := some fiftyWords, source := some "microphone" }

/-- A 3-word segment (fails the completion filter's length check). -/
def segShort : Segment := { text := some "just a word", source := some "microphone" }

/-- Double-run counterexample, transcript B: tracked but its inbox file is
missing when the first run reaches it. -/
def c2docB : Doc :=
  { id := some "B", title := some "acme meeting", meeting_end_count := some 1,
    start_time := some "2024-01-05T10:00:00" }

/-- Double-run counterexample, transcript A: untracked, routed to the inbox,
and its fresh filename collides with B's stale ledger filename. -/
def c2docA : Doc :=
  { id := some "A", title := some "Hello", meeting_end_count := some 1,
    start_time := some "2024-01-01T00:00:00" }

def c2cache : CacheState :=
  { transcripts := [("B", [seg50]), ("A", [seg50])],
    documents := [("B", c2docB), ("A", c2docA)] }

/-- Initial ledger: B is tracked, unrouted, with a recorded file that is not
on disk (the filesystem starts empty). -/
def c2tracking : List (String × TrackEntry) :=
  [("B", { synced_at := "t0", routed := false, client := none,
           file := some "2024-01-01-Hello.md", title := some "acme meeting" })]

def c2run1 : SyncState :=
  sync_transcripts CLIENT_ROUTES "now1" "2024-06-01" c2cache c2tracking []

def c2run2 : SyncState :=
  sync_transcripts CLIENT_ROUTES "now2" "2024-06-01" c2cache c2run1.tracking c2run1.files

/-- Idempotence witness: one completed, unrouted transcript. -/
def w2doc : Doc :=
  { id := some "W", title := some "Hello World", meeting_end_count := some 1,
    start_time := some "2024-03-03T09:00:00" }

def w2cache : CacheState :=
  { transcripts := [("W", [seg50])], documents := [("W", w2doc)] }

def w2run1 : SyncState :=
  sync_transcripts CLIENT_ROUTES "n1" "2024-06-01" w2cache [] []

/-- Rename-transition document: its title change moves the classifier match
from Acme-Corp (the prior client in the ledger) to Internal. -/
def c4doc : Doc :=
  { id := some "D", title := some "internal retro", meeting_end_count := some 1,
    start_time := some "2024-02-02T08:00:00" }

/-- Prior ledger entry for c4doc: routed to Acme-Corp under the old title. -/
def c4entry : TrackEntry :=
  { synced_at := "t0", routed := true, client := some "Acme-Corp",
    file := some "2024-01-15-acme-call.md", title := some "acme call" }

/-- State for the C4 counterexample: the old file sits at its prior location
(the Acme-Corp call-notes directory). -/
def c4state : SyncState :=
  { tracking := [("D", c4entry)],
    files := [(pjoin (get_client_call_notes_dir "Acme-Corp") "2024-01-15-acme-call.md", "old content")],
    new_count := 0, routed_count := 0, updated_count := 0 }

/-- State for the C4 witness: the old filename sits at the current
destination directory (Internal call-notes), where line 237 looks. -/
def c4wstate : SyncState :=
  { tracking := [("D", c4entry)],
    files := [(pjoin (get_client_call_notes_dir "Internal") "2024-01-15-acme-call.md", "old content")],
    new_count := 0, routed_count := 0, updated_count := 0 }

/-- An unfinished document (only 3 words of transcript). -/
def c8doc : Doc :=
  { id := some "X", title := some "Tiny", meeting_end_count := some 1,
    start_time := some "2024-04-04T10:00:00" }

def c8cache : CacheState :=
  { transcripts := [("X", [segShort])], documents := [("X", c8doc)] }

/-- Ledger with a stub for X (present, not done) and for Y (absent from the
cache entirely). -/
def c8tracking : List (String × TrackEntry) :=
  [("X", { synced_at := "unknown", routed := false, file := none }),
   ("Y", { synced_at := "unknown", routed := false, file := none })]

/-- C9 cache: the transcript `xyz` sorts first (later start time) and its
title contains the other transcript's id `abc` as a substring. -/
def c9docAbc : Doc :=
  { id := some "abc", title := some "Budget", start_time := some "2024-05-01T09:00:00" }

def c9docXyz : Doc :=
  { id := some "xyz", title := some "Notes abc review", start_time := some "2024-05-02T09:00:00" }

def c9cache : CacheState :=
  { transcripts := [("abc", [segShort]), ("xyz", [segShort])],
    documents := [("abc", c9docAbc), ("xyz", c9docXyz)] }

/-! ## Generic lemmas about the list helpers -/

theorem collapseGo_subset (b : Bool) (l : List Char) :
    ∀ c ∈ collapseGo b l, c ∈ l := by
  induction l generalizing b with
  | nil => intro c hc; simp [collapseGo] at hc
  | cons hd tl ih =>
    intro c hc
    by_cases hhd : hd = '-'
    · subst hhd
      cases b with
      | true =>
        simp only [collapseGo, beq_self_eq_true, if_pos] at hc
        exact List.mem_cons_of_mem _ (ih true c hc)
      | false =>
        simp only [collapseGo, beq_self_eq_true, if_pos] at hc
        rcases List.mem_cons.mp hc with h | h
        · exact h ▸ List.mem_cons_self _ _
        · exact List.mem_cons_of_mem _ (ih true c h)
    · have hne : (hd == '-') = false := beq_eq_false_iff_ne.mpr hhd
      simp only [collapseGo, hne, Bool.false_eq_true, if_neg, reduceIte] at hc
      rcases List.mem_cons.mp hc with h | h
      · exact h ▸ List.mem_cons_self _ _
      · exact List.mem_cons_of_mem _ (ih false c h)

theorem collapseGo_length (b : Bool) (l : List Char) :
    (collapseGo b l).length ≤ l.length := by
  induction l generalizing b with
  | nil => simp [collapseGo]
  | cons hd tl ih =>
    by_cases hhd : hd = '-'
    · subst hhd
      cases b with
      | true =>
        simp only [collapseGo, beq_self_eq_true, if_pos]
        exact Nat.le_succ_of_le (ih true)
      | false =>
        simp only [collapseGo, beq_self_eq_true, if_pos, List.length_cons]
        exact Nat.succ_le_succ (ih true)
    · have hne : (hd == '-') = false := beq_eq_false_iff_ne.mpr hhd
      simp only [collapseGo, hne, Bool.false_eq_true, reduceIte, List.length_cons]
      exact Nat.succ_le_succ (ih false)

theorem stripChars_subset (l : List Char) : ∀ c ∈ stripChars l, c ∈ l := by
  intro c hc
  unfold stripChars at hc
  rw [List.mem_reverse] at hc
  have h1 := (List.dropWhile_sublist (l := (l.dropWhile Char.isWhitespace).reverse)
    Char.isWhitespace).subset hc
  rw [List.mem_reverse] at h1
  exact (List.dropWhile_sublist Char.isWhitespace).subset h1

theorem stripChars_length (l : List Char) : (stripChars l).length ≤ l.length := by
  unfold stripChars
  rw [List.length_reverse]
  calc ((l.dropWhile Char.isWhitespace).reverse.dropWhile Char.isWhitespace).length
      ≤ (l.dropWhile Char.isWhitespace).reverse.length :=
        (List.dropWhile_sublist Char.isWhitespace).length_le
    _ = (l.dropWhile Char.isWhitespace).length := List.length_reverse _
    _ ≤ l.length := (List.dropWhile_sublist Char.isWhitespace).length_le

/-- Every character of the sanitized title is a hyphen, or a non-space
character of the original title that is a word character or whitespace. -/
theorem sanitizeTitle_source (t : String) :
    ∀ c ∈ sanitizeTitle t,
      c = '-' ∨ (c ∈ t.data ∧ c ≠ ' ' ∧ (isWordChar c = true ∨ c.isWhitespace = true)) := by
  intro c hc
  unfold sanitizeTitle at hc
  have h4 := collapseGo_subset _ _ c hc
  rcases List.mem_map.mp h4 with ⟨a, ha3, hfa⟩
  by_cases hsp : a = ' '
  · left
    rw [← hfa, hsp]
    rfl
  · have hne : (a == ' ') = false := beq_eq_false_iff_ne.mpr hsp
    have hca : c = a := by rw [← hfa, hne]; rfl
    subst hca
    have ha2 := stripChars_subset _ _ ha3
    have ha1 := List.take_subset 60 _ ha2
    have := List.mem_filter.mp ha1
    rcases this with ⟨hmem, hprop⟩
    rcases Bool.or_eq_true .. |>.mp hprop with h | h
    · rcases Bool.or_eq_true .. |>.mp h with h' | h'
      · exact Or.inr ⟨hmem, hsp, Or.inl h'⟩
      · exact Or.inr ⟨hmem, hsp, Or.inr h'⟩
    · left; exact eq_of_beq h

theorem sanitizeTitle_length (t : String) : (sanitizeTitle t).length ≤ 60 := by
  unfold sanitizeTitle
  calc (collapseGo false ((stripChars ((t.data.filter
          (fun c => isWordChar c || c.isWhitespace || c == '-')).take 60)).map
          (fun c => if c == ' ' then '-' else c))).length
      ≤ ((stripChars ((t.data.filter
          (fun c => isWordChar c || c.isWhitespace || c == '-')).take 60)).map
          (fun c => if c == ' ' then '-' else c)).length := collapseGo_length _ _
    _ = (stripChars ((t.data.filter
          (fun c => isWordChar c || c.isWhitespace || c == '-')).take 60)).length :=
        List.length_map _ _
    _ ≤ ((t.data.filter
          (fun c => isWordChar c || c.isWhitespace || c == '-')).take 60).length :=
        stripChars_length _
    _ ≤ 60 := by
        rw [List.length_take]
        exact min_le_left _ _

/-- A Bool that is not true is false. -/
theorem bool_eq_false {b : Bool} (h : ¬(b = true)) : b = false := by
  cases b
  · rfl
  · exact absurd rfl h

/-! ## C1: the completion filter -/

/-- C1 (confirmed). `is_meeting_done(doc, entries)` returns true iff
`meeting_end_count` is present and at least 1, the title is present and
non-empty, and the word count (sum of whitespace-split token counts over all
segment texts, 0 for an empty list) is at least 50; in particular it is
false whenever the word count is below 50, regardless of other fields. -/
theorem claim_C1 (doc : Doc) (entries : List Segment) :
    (is_meeting_done doc entries = true ↔
      ((∃ n : Int, doc.meeting_end_count = some n ∧ 1 ≤ n) ∧
       (∃ t : String, doc.title = some t ∧ t ≠ "") ∧
       50 ≤ wordCountEntries entries)) ∧
    (wordCountEntries entries < 50 → is_meeting_done doc entries = false) := by
  have main : is_meeting_done doc entries = true ↔
      ((∃ n : Int, doc.meeting_end_count = some n ∧ 1 ≤ n) ∧
       (∃ t : String, doc.title = some t ∧ t ≠ "") ∧
       50 ≤ wordCountEntries entries) := by
    simp only [is_meeting_done]
    split_ifs with h1 h2 h3
    · simp only [Bool.false_eq_true, false_iff]
      rintro ⟨⟨n, hn, hge⟩, -, -⟩
      rw [hn] at h1
      rcases Bool.or_eq_true .. |>.mp h1 with h | h
      · simp only [pyTruthyI] at h
        have hz : n = 0 := by simpa using h
        omega
      · have hlt : (some n).getD 0 < 1 := of_decide_eq_true h
        simp only [Option.getD_some] at hlt
        omega
    · simp only [Bool.false_eq_true, false_iff]
      rintro ⟨-, ⟨t, ht, htne⟩, -⟩
      rw [ht] at h2
      simp only [pyTruthyS] at h2
      have : t = "" := by simpa using h2
      exact htne this
    · simp only [Bool.false_eq_true, false_iff]
      rintro ⟨-, -, hw⟩
      omega
    · simp only [true_iff]
      refine ⟨?_, ?_, ?_⟩
      · rcases hec : doc.meeting_end_count with - | n
        · rw [hec] at h1
          simp [pyTruthyI] at h1
        · refine ⟨n, rfl, ?_⟩
          rw [hec] at h1
          have h1' := bool_eq_false h1
          rcases Bool.or_eq_false_iff.mp h1' with ⟨-, hb⟩
          have hnlt : ¬((some n).getD 0 < 1) := of_decide_eq_false hb
          simp only [Option.getD_some] at hnlt
          omega
      · rcases ht : doc.title with - | t
        · rw [ht] at h2
          simp [pyTruthyS] at h2
        · refine ⟨t, rfl, ?_⟩
          rw [ht] at h2
          have h2' := bool_eq_false h2
          simp only [pyTruthyS, Bool.not_eq_false'] at h2'
          simpa using h2'
      · omega
  refine ⟨main, ?_⟩
  intro hw
  by_contra hcon
  have htrue : is_meeting_done doc entries = true := by
    cases h : is_meeting_done doc entries
    · exact absurd h hcon
    · rfl
  rcases main.mp htrue with ⟨-, -, hge⟩
  omega

/-- C1 witness: a concrete ended, titled document whose (empty) transcript
falls below the 50-word threshold is rejected. -/
theorem claim_C1_witness : wordCountEntries [] < 50 ∧ is_meeting_done c1doc [] = false :=
  ⟨by decide, (claim_C1 c1doc []).2 (by decide)⟩

/-! ## C3: the classifier -/

/-- The route scan is a first-match search over the table in order. -/
theorem matchLoop_eq_find (st : String) (routes : List (List String × String)) :
    matchLoop routes st =
      (routes.find? (fun r => r.1.any (fun kw => pyIn kw st))).map (fun r => r.2) := by
  induction routes with
  | nil => rfl
  | cons r rest ih =>
    obtain ⟨kws, folder⟩ := r
    by_cases h : kws.any (fun kw => pyIn kw st) = true
    · simp [matchLoop, List.find?, h]
    · have h' := bool_eq_false h
      simp [matchLoop, List.find?, h', ih]

/-- C3 (confirmed). For every routing table and title/people input,
`match_client` returns the folder of the first table entry (in configured
order) having some keyword that is a case-insensitive substring of the
search text (title plus people title when present), and `none` when no entry
matches; in particular, with entries `[(["a"],"F1"), (["a","b"],"F2")]`, any
input whose search text contains "a" yields "F1" (first match wins), and any
input whose search text contains "b" but not "a" yields "F2". -/
theorem claim_C3 (routes : List (List String × String))
    (title : Option String) (people : Option People) :
    (match_client routes title people =
      (routes.find? (fun r => r.1.any (fun kw => pyIn kw (search_text title people)))).map
        (fun r => r.2)) ∧
    (pyIn "a" (search_text title people) = true →
      match_client [(["a"], "F1"), (["a", "b"], "F2")] title people = some "F1") ∧
    (pyIn "a" (search_text title people) = false →
      pyIn "b" (search_text title people) = true →
      match_client [(["a"], "F1"), (["a", "b"], "F2")] title people = some "F2") := by
  refine ⟨matchLoop_eq_find _ _, ?_, ?_⟩
  · intro ha
    simp [match_client, matchLoop, ha]
  · intro ha hb
    simp [match_client, matchLoop, ha, hb]

/-- C3 witness: the spec's concrete precedence examples, via `claim_C3`:
a title containing only "b" routes to "F2"; one containing "a" routes to
"F1" even though it also matches F2's keyword set. -/
theorem claim_C3_witness :
    match_client [(["a"], "F1"), (["a", "b"], "F2")] (some "xbz") none = some "F2" ∧
    match_client [(["a"], "F1"), (["a", "b"], "F2")] (some "cat") none = some "F1" :=
  ⟨(claim_C3 [(["a"], "F1"), (["a", "b"], "F2")] (some "xbz") none).2.2 (by decide) (by decide),
   (claim_C3 [(["a"], "F1"), (["a", "b"], "F2")] (some "cat") none).2.1 (by decide)⟩

/-! ## C5: filename derivation -/

/-- C5 counterexample. The claim says the sanitized title contains no
whitespace (all whitespace runs becoming hyphens), but the code's
`.replace(' ', '-')` only replaces the space character: a tab inside the
title survives into the filename. -/
theorem claim_C5_counterexample :
    make_filename "2024-01-01" "a\tb" = "2024-01-01-a\tb.md" ∧
    '\t' ∈ (make_filename "2024-01-01" "a\tb").data ∧ ('\t').isWhitespace = true := by
  refine ⟨by decide, by decide, by decide⟩

/-- C5 (corrected). `make_filename(date_prefix, title)` yields the date
prefix, a hyphen, the sanitized title, and ".md", where sanitizing keeps only
word characters, whitespace and hyphens from the first 60 such characters of
the title, trims edge whitespace, replaces space characters (only U+0020,
not all whitespace) by hyphens and collapses hyphen runs; hence every
character of the sanitized part is a word character, a hyphen, or a
non-space whitespace character carried over from the title, the sanitized
part has at most 60 characters, and when the title's whitespace consists
only of spaces the sanitized part contains only word characters and hyphens.
The spec's example title yields "2024-03-01-Q3-Planning-Acme-Co.md". -/
theorem claim_C5_amended (d t : String) :
    make_filename d t = d ++ "-" ++ String.mk (sanitizeTitle t) ++ ".md" ∧
    (sanitizeTitle t).length ≤ 60 ∧
    (∀ c ∈ sanitizeTitle t,
      isWordChar c = true ∨ c = '-' ∨ (c.isWhitespace = true ∧ c ≠ ' ')) ∧
    ((∀ c ∈ t.data, c.isWhitespace = true → c = ' ') →
      ∀ c ∈ sanitizeTitle t, isWordChar c = true ∨ c = '-') ∧
    make_filename "2024-03-01" "Q3 Planning: Acme & Co!!" =
      "2024-03-01-Q3-Planning-Acme-Co.md" := by
  refine ⟨rfl, sanitizeTitle_length t, ?_, ?_, by decide⟩
  · intro c hc
    rcases sanitizeTitle_source t c hc with h | ⟨hmem, hsp, hcls⟩
    · exact Or.inr (Or.inl h)
    · rcases hcls with h | h
      · exact Or.inl h
      · exact Or.inr (Or.inr ⟨h, hsp⟩)
  · intro hws c hc
    rcases sanitizeTitle_source t c hc with h | ⟨hmem, hsp, hcls⟩
    · exact Or.inr h
    · rcases hcls with h | h
      · exact Or.inl h
      · exact absurd (hws c hmem h) hsp

/-- C5 witness: a title whose whitespace is only spaces sanitizes to word
characters and hyphens only, via `claim_C5_amended`. -/
theorem claim_C5_witness :
    (∀ c ∈ ("Board meeting" : String).data, c.isWhitespace = true → c = ' ') ∧
    (∀ c ∈ sanitizeTitle "Board meeting", isWordChar c = true ∨ c = '-') := by
  have h : ∀ c ∈ ("Board meeting" : String).data, c.isWhitespace = true → c = ' ' := by decide
  exact ⟨h, (claim_C5_amended "2024-01-01" "Board meeting").2.2.2.1 h⟩

/-! ## C7: the two renderers -/

/-- If every segment's text strips to empty, both render loops emit nothing. -/
theorem fmtLines_all_empty (entries : List Segment)
    (h : entries.all (fun e => stripStr e.getText == "") = true) :
    ∀ cur, fmtLinesSync cur entries = [] ∧ fmtLinesCli cur entries = [] := by
  induction entries with
  | nil => intro cur; exact ⟨rfl, rfl⟩
  | cons e rest ih =>
    intro cur
    rcases List.all_cons .. ▸ h with h'
    have he : (stripStr e.getText == "") = true := (Bool.and_eq_true ..).mp h' |>.1
    have hrest := (Bool.and_eq_true ..).mp h' |>.2
    have ihc := ih hrest
    constructor
    · simp only [fmtLinesSync, he]
      exact (ihc cur).1
    · simp only [fmtLinesCli, he]
      exact (ihc cur).2

/-- C7 counterexample. The two `format_transcript` functions are not the
same: on a single microphone segment the sync renderer's label carries a
trailing space (giving a double space before the text) while the CLI
renderer's does not. -/
theorem claim_C7_counterexample :
    format_transcript [{ text := some "hi", source := some "microphone" }] ≠
      format_transcript_cli [{ text := some "hi", source := some "microphone" }] := by
  decide

/-- C7 (corrected). The renderer is duplicated, not shared: the sync
renderer appends a trailing space to every speaker label (so a label is
followed by two spaces once lines are joined) and labels unknown sources
with the raw tag, while the CLI renderer emits no label at all for unknown
sources.  Both drop whitespace-only segments and join with single spaces,
and they agree (both producing the empty string) whenever every segment's
text strips to empty. -/
theorem claim_C7_amended (entries : List Segment) :
    (entries.all (fun e => stripStr e.getText == "") = true →
      format_transcript entries = "" ∧ format_transcript_cli entries = "") ∧
    (format_transcript [{ text := some "hi", source := some "microphone" }] =
        "\n**[You]**  hi" ∧
      format_transcript_cli [{ text := some "hi", source := some "microphone" }] =
        "\n**[You]** hi") ∧
    (format_transcript [{ text := some "hi", source := some "zoom" }] =
        "\n**[zoom]**  hi" ∧
      format_transcript_cli [{ text := some "hi", source := some "zoom" }] = "hi") := by
  refine ⟨?_, ⟨by decide, by decide⟩, ⟨by decide, by decide⟩⟩
  intro h
  have hl := fmtLines_all_empty entries h none
  unfold format_transcript format_transcript_cli
  rw [hl.1, hl.2]
  exact ⟨rfl, rfl⟩

/-- C7 witness: a transcript whose only text is whitespace renders to the
empty string under both renderers, via `claim_C7_amended`. -/
theorem claim_C7_witness :
    ([{ text := some "  ", source := some "microphone" }] : List Segment).all
        (fun e => stripStr e.getText == "") = true ∧
    format_transcript [{ text := some "  ", source := some "microphone" }] = "" := by
  have h : ([{ text := some "  ", source := some "microphone" }] : List Segment).all
      (fun e => stripStr e.getText == "") = true := by decide
  exact ⟨h, ((claim_C7_amended _).1 h).1⟩

/-! ## C9: show_transcript lookup -/

/-- The show loop is a first-match search over the sorted transcript list. -/
theorem showFind_eq_find (q : String) (l : List TransRec) :
    showFind q l = l.find? (showPred q) := by
  induction l with
  | nil => rfl
  | cons t rest ih =>
    by_cases h : showPred q t = true
    · simp [showFind, List.find?, h]
    · have h' := bool_eq_false h
      simp [showFind, List.find?, h', ih]

/-- C9 (confirmed). `show_transcript(doc_id)` prints the first transcript,
in descending start-time order, whose id equals the query or whose title
contains the query case-insensitively — both conditions checked together
with no precedence for an exact id; consequently, in `c9cache` the exact-id
query "abc" is answered by the earlier-sorted transcript "xyz" whose title
contains "abc", even though a transcript with id "abc" exists. -/
theorem claim_C9 :
    (∀ state doc_id, show_transcript state doc_id =
      (get_transcripts_with_docs state).find? (showPred doc_id)) ∧
    (∃ t, show_transcript c9cache "abc" = some t ∧ t.id = "xyz" ∧ t.id ≠ "abc") ∧
    ((get_transcripts_with_docs c9cache).any (fun t => t.id == "abc") = true) := by
  refine ⟨fun state doc_id => showFind_eq_find doc_id _, ?_, by decide⟩
  refine ⟨{ id := "xyz", title := "Notes abc review",
            start_time := some "2024-05-02T09:00:00",
            entries := [segShort], word_count := 3 }, ?_, rfl, by decide⟩
  rfl

/-! ## C6: the cache reader -/

/-- C6 counterexample. The claim says `load_cache` fails whenever an
expected key is absent, but a well-formed cache whose inner object lacks the
`state` key does not fail: `cache.get('state', {})` silently returns the
empty mapping.  (With `json.loads` modelled as constantly returning the
empty object, the file parses, `cache` is present and a string, the inner
parse succeeds — and the absent `state` key yields `some` of an empty
object rather than an error.) -/
theorem claim_C6_counterexample :
    load_cache (fun _ => some (JVal.obj []))
        (.parsed (JVal.obj [("cache", JVal.str "\x7b\x7d")])) = some (JVal.obj []) ∧
    jGet (JVal.obj []) "state" = none :=
  ⟨rfl, rfl⟩

/-- C6 (corrected). `load_cache` fails exactly when the cache file is
missing or unreadable, the outer JSON parse fails, the parsed outer value is
not an object containing the key `cache`, the `cache` value is not a string,
the inner JSON parse of that string fails, or the inner parsed value is not
an object.  A missing `state` key in the inner object is NOT an error: the
call succeeds and returns the `state` value, defaulting to an empty object. -/
theorem claim_C6_amended (parseJson : String → Option JVal) (input : CacheFileInput) :
    ((load_cache parseJson input).isSome = true ↔
      ∃ data s fields, input = .parsed data ∧ jGet data "cache" = some (JVal.str s) ∧
        parseJson s = some (JVal.obj fields)) ∧
    (∀ data s fields, input = .parsed data → jGet data "cache" = some (JVal.str s) →
      parseJson s = some (JVal.obj fields) →
      load_cache parseJson input =
        some ((((fields.find? (fun p => p.1 == "state")).map (fun p => p.2))).getD
          (JVal.obj []))) := by
  constructor
  · cases input with
    | missing =>
      simp only [load_cache, Option.isSome_none, Bool.false_eq_true, false_iff]
      rintro ⟨d, s, f, h, -, -⟩
      cases h
    | unparsable =>
      simp only [load_cache, Option.isSome_none, Bool.false_eq_true, false_iff]
      rintro ⟨d, s, f, h, -, -⟩
      cases h
    | parsed data =>
      constructor
      · intro hs
        simp only [load_cache] at hs
        cases hj : jGet data "cache" with
        | none => rw [hj] at hs; cases hs
        | some v =>
          rw [hj] at hs
          simp only [Option.some_bind] at hs
          cases v with
          | str s =>
            simp only [jAsStr, Option.some_bind] at hs
            cases hp : parseJson s with
            | none => rw [hp] at hs; cases hs
            | some c =>
              rw [hp] at hs
              simp only [Option.some_bind] at hs
              cases c with
              | obj fields => exact ⟨data, s, fields, rfl, hj, hp⟩
              | null => simp [jAsObj] at hs
              | bool b => simp [jAsObj] at hs
              | num n => simp [jAsObj] at hs
              | str s2 => simp [jAsObj] at hs
              | arr a => simp [jAsObj] at hs
          | null => simp [jAsStr] at hs
          | bool b => simp [jAsStr] at hs
          | num n => simp [jAsStr] at hs
          | arr a => simp [jAsStr] at hs
          | obj f2 => simp [jAsStr] at hs
      · rintro ⟨d, s, fields, hd, hj, hp⟩
        cases hd
        simp [load_cache, hj, hp, jAsStr, jAsObj]
  · intro data s fields hd hj hp
    cases hd
    simp [load_cache, hj, hp, jAsStr, jAsObj]

/-- C6 witness: a fully well-formed input succeeds and returns the `state`
value, via `claim_C6_amended`. -/
theorem claim_C6_witness :
    load_cache (fun _ => some (JVal.obj [("state", JVal.num 5)]))
        (.parsed (JVal.obj [("cache", JVal.str "x")])) = some (JVal.num 5) :=
  (claim_C6_amended (fun _ => some (JVal.obj [("state", JVal.num 5)]))
      (.parsed (JVal.obj [("cache", JVal.str "x")]))).2
    (JVal.obj [("cache", JVal.str "x")]) "x" [("state", JVal.num 5)] rfl rfl rfl

/-! ## Lemmas about the association-list operations -/

theorem aget_cons {α : Type} (q : String × α) (rest : List (String × α)) (k : String) :
    aget (q :: rest) k = if q.1 == k then some q.2 else aget rest k := by
  by_cases hq : (q.1 == k) = true
  · simp [aget, List.find?_cons, hq]
  · have hq' := bool_eq_false hq
    simp [aget, List.find?_cons, hq']

theorem aget_update_map_ne {α : Type} (m : List (String × α)) (k k' : String) (v : α)
    (h : (k == k') = false) :
    aget (m.map (fun p => if p.1 == k then (k, v) else p)) k' = aget m k' := by
  induction m with
  | nil => rfl
  | cons q rest ih =>
    rw [List.map_cons, aget_cons, aget_cons]
    by_cases hq : (q.1 == k) = true
    · have hk : q.1 = k := eq_of_beq hq
      have h2 : (q.1 == k') = false := by rw [hk]; exact h
      simp only [hq, reduceIte, h, h2, Bool.false_eq_true, ih]
    · have hq' := bool_eq_false hq
      simp only [hq', Bool.false_eq_true, reduceIte, ih]

theorem aget_update_map_self {α : Type} (m : List (String × α)) (k : String) (v : α)
    (ha : m.any (fun p => p.1 == k) = true) :
    aget (m.map (fun p => if p.1 == k then (k, v) else p)) k = some v := by
  induction m with
  | nil => cases ha
  | cons q rest ih =>
    rw [List.map_cons, aget_cons]
    by_cases hq : (q.1 == k) = true
    · simp only [hq, reduceIte, beq_self_eq_true]
    · have hq' := bool_eq_false hq
      have harest : rest.any (fun p => p.1 == k) = true := by
        rcases (List.any_cons ..).symm ▸ ha with h
        rcases Bool.or_eq_true .. |>.mp h with h' | h'
        · exact absurd h' (by simp [hq'])
        · exact h'
      simp only [hq', Bool.false_eq_true, reduceIte, ih harest]

theorem aget_aset_self {α : Type} (m : List (String × α)) (k : String) (v : α) :
    aget (aset m k v) k = some v := by
  unfold aset
  by_cases ha : m.any (fun p => p.1 == k) = true
  · rw [if_pos ha]
    exact aget_update_map_self m k v ha
  · rw [if_neg ha]
    have ha' := bool_eq_false ha
    have hnone : m.find? (fun p => p.1 == k) = none := by
      rw [List.find?_eq_none]
      intro p hp hcon
      have : m.any (fun p => p.1 == k) = true := List.any_of_mem hp hcon
      rw [ha'] at this
      cases this
    unfold aget
    rw [List.find?_append, hnone]
    simp [List.find?_cons]

theorem aget_aset_ne {α : Type} (m : List (String × α)) (k k' : String) (v : α)
    (h : (k == k') = false) :
    aget (aset m k v) k' = aget m k' := by
  unfold aset
  by_cases ha : m.any (fun p => p.1 == k) = true
  · rw [if_pos ha]
    exact aget_update_map_ne m k k' v h
  · rw [if_neg ha]
    unfold aget
    rw [List.find?_append]
    cases hf : m.find? (fun p => p.1 == k') with
    | some q => simp
    | none => simp [List.find?_cons, h]

theorem aget_aset_isSome {α : Type} (m : List (String × α)) (k k' : String) (v : α)
    (h : (aget m k').isSome = true) :
    (aget (aset m k v) k').isSome = true := by
  by_cases hk : (k == k') = true
  · have hkk : k = k' := eq_of_beq hk
    subst hkk
    rw [aget_aset_self]
    rfl
  · rw [aget_aset_ne m k k' v (bool_eq_false hk)]
    exact h

/-! ## Branch characterization of one sync iteration -/

/-- Empty or unfinished transcripts are skipped (`continue`). -/
theorem syncOne_guard_noop (routes : List (List String × String)) (now today : String)
    (doc : Doc) (doc_id : String) (entries : List Segment) (s : SyncState)
    (h : entries.isEmpty = true ∨ is_meeting_done doc entries = false) :
    syncOne routes now today doc doc_id entries s = s := by
  rcases h with h | h
  · simp [syncOne, h]
  · simp [syncOne, h]

/-- The untracked (new transcript) branch (lines 254-271). -/
theorem syncOne_untracked (routes : List (List String × String)) (now today : String)
    (doc : Doc) (doc_id : String) (entries : List Segment) (s : SyncState)
    (hemp : entries.isEmpty = false) (hdone : is_meeting_done doc entries = true)
    (hag : aget s.tracking doc_id = none) :
    syncOne routes now today doc doc_id entries s =
      { s with
        tracking := aset s.tracking doc_id
          { synced_at := now, routed := pyTruthyS (syncClientFolder routes doc),
            client := syncClientFolder routes doc,
            file := some (syncFilename today doc), title := some (syncTitle doc) },
        files := fsWrite s.files (syncFilepath routes today doc)
          (build_content (syncTitle doc) doc entries),
        new_count := s.new_count + 1 } := by
  simp only [syncOne, hemp, Bool.false_eq_true, reduceIte, hdone, Bool.not_true, hag]

/-- The reroute branch (lines 219-234). -/
theorem syncOne_b1 (routes : List (List String × String)) (now today : String)
    (doc : Doc) (doc_id : String) (entries : List Segment) (s : SyncState)
    (tracked : TrackEntry)
    (hemp : entries.isEmpty = false) (hdone : is_meeting_done doc entries = true)
    (hag : aget s.tracking doc_id = some tracked)
    (hb1 : b1cond tracked (syncClientFolder routes doc) = true) :
    syncOne routes now today doc doc_id entries s =
      (if fsExists s.files (pjoin INBOX_DIR (tracked.file.getD "")) then
        { s with
          tracking := aset s.tracking doc_id
            { synced_at := now, routed := true, client := syncClientFolder routes doc,
              file := some (syncFilename today doc), title := some (syncTitle doc) },
          files := fsRemove (fsWrite s.files (syncFilepath routes today doc)
              (build_content (syncTitle doc) doc entries))
            (pjoin INBOX_DIR (tracked.file.getD "")),
          routed_count := s.routed_count + 1 }
      else s) := by
  simp only [syncOne, hemp, Bool.false_eq_true, reduceIte, hdone, Bool.not_true, hag, hb1]

/-- The rename (title changed) branch (lines 236-252). -/
theorem syncOne_b2 (routes : List (List String × String)) (now today : String)
    (doc : Doc) (doc_id : String) (entries : List Segment) (s : SyncState)
    (tracked : TrackEntry)
    (hemp : entries.isEmpty = false) (hdone : is_meeting_done doc entries = true)
    (hag : aget s.tracking doc_id = some tracked)
    (hb1 : b1cond tracked (syncClientFolder routes doc) = false)
    (hb2 : b2cond tracked (syncTitle doc) = true) :
    syncOne routes now today doc doc_id entries s =
      (if fsExists s.files
          (pjoin (if tracked.routed then syncDestDir routes doc else INBOX_DIR)
            (tracked.file.getD "")) then
        { s with
          tracking := aset s.tracking doc_id
            { synced_at := now, routed := tracked.routed,
              client := if tracked.routed then syncClientFolder routes doc else none,
              file := some (syncFilename today doc), title := some (syncTitle doc) },
          files :=
            if (pjoin (if tracked.routed then syncDestDir routes doc else INBOX_DIR)
                  (tracked.file.getD "")) != syncFilepath routes today doc
            then fsRemove (fsWrite s.files (syncFilepath routes today doc)
                (build_content (syncTitle doc) doc entries))
              (pjoin (if tracked.routed then syncDestDir routes doc else INBOX_DIR)
                (tracked.file.getD ""))
            else fsWrite s.files (syncFilepath routes today doc)
              (build_content (syncTitle doc) doc entries),
          updated_count := s.updated_count + 1 }
      else s) := by
  simp only [syncOne, hemp, Bool.false_eq_true, reduceIte, hdone, Bool.not_true, hag, hb1, hb2]

/-- The already-in-sync branch: both guards false, nothing happens. -/
theorem syncOne_inert (routes : List (List String × String)) (now today : String)
    (doc : Doc) (doc_id : String) (entries : List Segment) (s : SyncState)
    (tracked : TrackEntry)
    (hemp : entries.isEmpty = false) (hdone : is_meeting_done doc entries = true)
    (hag : aget s.tracking doc_id = some tracked)
    (hb1 : b1cond tracked (syncClientFolder routes doc) = false)
    (hb2 : b2cond tracked (syncTitle doc) = false) :
    syncOne routes now today doc doc_id entries s = s := by
  simp only [syncOne, hemp, Bool.false_eq_true, reduceIte, hdone, Bool.not_true, hag, hb1, hb2]

/-- A `noPending` transcript's iteration leaves the state untouched. -/
theorem syncOne_noop (routes : List (List String × String)) (now today : String)
    (doc : Doc) (doc_id : String) (entries : List Segment) (s : SyncState)
    (h : entries.isEmpty = true ∨ is_meeting_done doc entries = false ∨
      noPending routes doc doc_id s.tracking s.files = true) :
    syncOne routes now today doc doc_id entries s = s := by
  rcases h with h | h | h
  · exact syncOne_guard_noop _ _ _ _ _ _ _ (Or.inl h)
  · exact syncOne_guard_noop _ _ _ _ _ _ _ (Or.inr h)
  · by_cases hemp : entries.isEmpty = true
    · exact syncOne_guard_noop _ _ _ _ _ _ _ (Or.inl hemp)
    · have hemp' := bool_eq_false hemp
      by_cases hdone : is_meeting_done doc entries = true
      · cases hag : aget s.tracking doc_id with
        | none =>
          simp only [noPending, hag] at h
          cases h
        | some tracked =>
          simp only [noPending, hag] at h
          by_cases hb1 : b1cond tracked (syncClientFolder routes doc) = true
          · rw [syncOne_b1 routes now today doc doc_id entries s tracked hemp' hdone hag hb1]
            simp only [hb1, reduceIte] at h
            have hfs : fsExists s.files (pjoin INBOX_DIR (tracked.file.getD "")) = false := by
              simpa using h
            simp [hfs]
          · have hb1' := bool_eq_false hb1
            simp only [hb1', Bool.false_eq_true, reduceIte] at h
            by_cases hb2 : b2cond tracked (syncTitle doc) = true
            · rw [syncOne_b2 routes now today doc doc_id entries s tracked hemp' hdone hag
                hb1' hb2]
              simp only [hb2, reduceIte] at h
              have hfs : fsExists s.files
                  (pjoin (if tracked.routed then syncDestDir routes doc else INBOX_DIR)
                    (tracked.file.getD "")) = false := by
                simpa using h
              simp [hfs]
            · exact syncOne_inert routes now today doc doc_id entries s tracked hemp' hdone hag
                hb1' (bool_eq_false hb2)
      · exact syncOne_guard_noop _ _ _ _ _ _ _ (Or.inr (bool_eq_false hdone))

/-- One iteration either leaves the tracking dict unchanged or writes an
entry under its own transcript id. -/
theorem syncOne_tracking_shape (routes : List (List String × String)) (now today : String)
    (doc : Doc) (doc_id : String) (entries : List Segment) (s : SyncState) :
    (syncOne routes now today doc doc_id entries s).tracking = s.tracking ∨
    ∃ v, (syncOne routes now today doc doc_id entries s).tracking = aset s.tracking doc_id v := by
  by_cases hemp : entries.isEmpty = true
  · left
    rw [syncOne_guard_noop _ _ _ _ _ _ _ (Or.inl hemp)]
  · have hemp' := bool_eq_false hemp
    by_cases hdone : is_meeting_done doc entries = true
    · cases hag : aget s.tracking doc_id with
      | none =>
        right
        rw [syncOne_untracked routes now today doc doc_id entries s hemp' hdone hag]
        exact ⟨_, rfl⟩
      | some tracked =>
        by_cases hb1 : b1cond tracked (syncClientFolder routes doc) = true
        · rw [syncOne_b1 routes now today doc doc_id entries s tracked hemp' hdone hag hb1]
          by_cases hfs : fsExists s.files (pjoin INBOX_DIR (tracked.file.getD "")) = true
          · right
            simp only [hfs, reduceIte]
            exact ⟨_, rfl⟩
          · left
            simp only [bool_eq_false hfs, Bool.false_eq_true, reduceIte]
        · have hb1' := bool_eq_false hb1
          by_cases hb2 : b2cond tracked (syncTitle doc) = true
          · rw [syncOne_b2 routes now today doc doc_id entries s tracked hemp' hdone hag
              hb1' hb2]
            by_cases hfs : fsExists s.files
                (pjoin (if tracked.routed then syncDestDir routes doc else INBOX_DIR)
                  (tracked.file.getD "")) = true
            · right
              simp only [hfs, reduceIte]
              exact ⟨_, rfl⟩
            · left
              simp only [bool_eq_false hfs, Bool.false_eq_true, reduceIte]
          · left
            rw [syncOne_inert routes now today doc doc_id entries s tracked hemp' hdone hag
              hb1' (bool_eq_false hb2)]
    · left
      rw [syncOne_guard_noop _ _ _ _ _ _ _ (Or.inr (bool_eq_false hdone))]

/-- An iteration for one transcript id never touches another id's entry. -/
theorem syncOne_tracking_ne (routes : List (List String × String)) (now today : String)
    (doc : Doc) (doc_id : String) (entries : List Segment) (s : SyncState) (id : String)
    (hne : (doc_id == id) = false) :
    aget (syncOne routes now today doc doc_id entries s).tracking id = aget s.tracking id := by
  rcases syncOne_tracking_shape routes now today doc doc_id entries s with h | ⟨v, h⟩
  · rw [h]
  · rw [h]
    exact aget_aset_ne s.tracking doc_id id v hne

/-- An iteration never removes a tracking entry. -/
theorem syncOne_tracking_isSome (routes : List (List String × String)) (now today : String)
    (doc : Doc) (doc_id : String) (entries : List Segment) (s : SyncState) (id : String)
    (h : (aget s.tracking id).isSome = true) :
    (aget (syncOne routes now today doc doc_id entries s).tracking id).isSome = true := by
  rcases syncOne_tracking_shape routes now today doc doc_id entries s with hs | ⟨v, hs⟩
  · rw [hs]
    exact h
  · rw [hs]
    exact aget_aset_isSome s.tracking doc_id id v h

/-- A transcript that passes the completion filter has a present, non-empty
title. -/
theorem is_meeting_done_title (doc : Doc) (entries : List Segment)
    (h : is_meeting_done doc entries = true) : ∃ t, doc.title = some t ∧ t ≠ "" := by
  simp only [is_meeting_done] at h
  split_ifs at h with h1 h2 h3
  have h2' := bool_eq_false h2
  cases ht : doc.title with
  | none =>
    rw [ht] at h2'
    simp [pyTruthyS] at h2'
  | some t =>
    rw [ht] at h2'
    simp only [pyTruthyS, Bool.not_eq_false'] at h2'
    exact ⟨t, rfl, by simpa using h2'⟩

/-! ## Fold-level lemmas about a whole sync run -/

/-- If every transcript in the list is skipped or pending-free against the
initial state, the whole fold is the identity. -/
theorem sync_foldl_noop (routes : List (List String × String)) (now today : String)
    (docf : String → Doc) :
    ∀ (l : List (String × List Segment)) (s : SyncState),
    (∀ p ∈ l, p.2.isEmpty = true ∨ is_meeting_done (docf p.1) p.2 = false ∨
      noPending routes (docf p.1) p.1 s.tracking s.files = true) →
    l.foldl (fun st p => syncOne routes now today (docf p.1) p.1 p.2 st) s = s := by
  intro l
  induction l with
  | nil => intro s H; rfl
  | cons p rest ih =>
    intro s H
    rw [List.foldl_cons, syncOne_noop routes now today (docf p.1) p.1 p.2 s
      (H p (List.mem_cons_self ..))]
    exact ih s (fun q hq => H q (List.mem_cons_of_mem _ hq))

/-- A run in which every eligible transcript is pending-free changes nothing
and reports zero actions. -/
theorem sync_transcripts_noop (routes : List (List String × String)) (now today : String)
    (cache : CacheState) (tracking1 : List (String × TrackEntry)) (files1 : FS)
    (H : ∀ p ∈ cache.transcripts,
      p.2.isEmpty = true ∨
      is_meeting_done ((aget cache.documents p.1).getD emptyDoc) p.2 = false ∨
      noPending routes ((aget cache.documents p.1).getD emptyDoc) p.1 tracking1 files1 = true) :
    sync_transcripts routes now today cache tracking1 files1 =
      { tracking := tracking1, files := files1,
        new_count := 0, routed_count := 0, updated_count := 0 } := by
  unfold sync_transcripts
  exact sync_foldl_noop routes now today
    (fun k => (aget cache.documents k).getD emptyDoc) cache.transcripts
    { tracking := tracking1, files := files1,
      new_count := 0, routed_count := 0, updated_count := 0 } H

/-- Ledger keys whose every occurrence in the cache is skipped keep their
entry across a run. -/
theorem sync_foldl_tracking_pres (routes : List (List String × String)) (now today : String)
    (docf : String → Doc) (id : String) :
    ∀ (l : List (String × List Segment)) (s : SyncState),
    (∀ p ∈ l, p.1 = id →
      (p.2.isEmpty = true ∨ is_meeting_done (docf p.1) p.2 = false)) →
    aget ((l.foldl (fun st p => syncOne routes now today (docf p.1) p.1 p.2 st) s).tracking) id
      = aget s.tracking id := by
  intro l
  induction l with
  | nil => intro s H; rfl
  | cons p rest ih =>
    intro s H
    rw [List.foldl_cons]
    rw [ih _ (fun q hq => H q (List.mem_cons_of_mem _ hq))]
    by_cases hp : p.1 = id
    · rw [syncOne_guard_noop _ _ _ _ _ _ _ (H p (List.mem_cons_self ..) hp)]
    · exact syncOne_tracking_ne routes now today (docf p.1) p.1 p.2 s id
        (beq_eq_false_iff_ne.mpr hp)

/-- No run ever removes a ledger entry. -/
theorem sync_foldl_tracking_isSome (routes : List (List String × String)) (now today : String)
    (docf : String → Doc) (id : String) :
    ∀ (l : List (String × List Segment)) (s : SyncState),
    (aget s.tracking id).isSome = true →
    (aget ((l.foldl (fun st p => syncOne routes now today (docf p.1) p.1 p.2 st) s).tracking)
      id).isSome = true := by
  intro l
  induction l with
  | nil => intro s h; exact h
  | cons p rest ih =>
    intro s h
    rw [List.foldl_cons]
    exact ih _ (syncOne_tracking_isSome routes now today (docf p.1) p.1 p.2 s id h)

/-! ## C2: idempotence of the double run -/

/-- C2 counterexample. The second run is NOT always a no-op: start with
transcript B tracked (unrouted, matching a client) whose recorded inbox file
is missing, and an untracked transcript A whose fresh inbox filename equals
B's stale recorded filename.  Run 1 skips B (old file absent) and then
writes A's file at exactly that path; run 2 finds the file, fires B's
reroute transition (one routed action), flips B's ledger entry to
routed=true and deletes A's file.  So the second run reports 1 routed action
instead of 0 and changes the ledger. -/
theorem claim_C2_counterexample :
    c2run2.routed_count = 1 ∧
    (aget c2run1.tracking "B").map (fun e => e.routed) = some false ∧
    (aget c2run2.tracking "B").map (fun e => e.routed) = some true :=
  ⟨rfl, rfl, rfl⟩

/-- C2 (corrected).  Running `sync_transcripts` twice with an unchanged
cache performs zero new/routed/updated actions on the second run and leaves
the ledger and files unchanged, PROVIDED the first run leaves every eligible
transcript pending-free (tracked, with each transition guard false or its
referenced old file absent — `noPending`).  The first run can fail to
establish this only by leaving a blocked transition whose old path is later
occupied, as in the filename-collision counterexample. -/
theorem claim_C2_amended (routes : List (List String × String))
    (now1 today1 now2 today2 : String) (cache : CacheState)
    (tracking0 : List (String × TrackEntry)) (files0 : FS)
    (H : ∀ p ∈ cache.transcripts,
      p.2.isEmpty = true ∨
      is_meeting_done ((aget cache.documents p.1).getD emptyDoc) p.2 = false ∨
      noPending routes ((aget cache.documents p.1).getD emptyDoc) p.1
        (sync_transcripts routes now1 today1 cache tracking0 files0).tracking
        (sync_transcripts routes now1 today1 cache tracking0 files0).files = true) :
    sync_transcripts routes now2 today2 cache
        (sync_transcripts routes now1 today1 cache tracking0 files0).tracking
        (sync_transcripts routes now1 today1 cache tracking0 files0).files =
      { tracking := (sync_transcripts routes now1 today1 cache tracking0 files0).tracking,
        files := (sync_transcripts routes now1 today1 cache tracking0 files0).files,
        new_count := 0, routed_count := 0, updated_count := 0 } :=
  sync_transcripts_noop routes now2 today2 cache _ _ H

/-- C2 witness: one completed, unrouted transcript synced from an empty
state; the first run leaves it pending-free and the second run is a no-op
with zero counters, via `claim_C2_amended`. -/
theorem claim_C2_witness :
    (∀ p ∈ w2cache.transcripts,
      p.2.isEmpty = true ∨
      is_meeting_done ((aget w2cache.documents p.1).getD emptyDoc) p.2 = false ∨
      noPending CLIENT_ROUTES ((aget w2cache.documents p.1).getD emptyDoc) p.1
        w2run1.tracking w2run1.files = true) ∧
    sync_transcripts CLIENT_ROUTES "n2" "2024-06-02" w2cache w2run1.tracking w2run1.files =
      { tracking := w2run1.tracking, files := w2run1.files,
        new_count := 0, routed_count := 0, updated_count := 0 } := by
  have h : ∀ p ∈ w2cache.transcripts,
      p.2.isEmpty = true ∨
      is_meeting_done ((aget w2cache.documents p.1).getD emptyDoc) p.2 = false ∨
      noPending CLIENT_ROUTES ((aget w2cache.documents p.1).getD emptyDoc) p.1
        w2run1.tracking w2run1.files = true := by decide
  exact ⟨h, claim_C2_amended CLIENT_ROUTES "n1" "2024-06-01" "n2" "2024-06-02" w2cache [] [] h⟩

/-! ## C4: the rename transition -/

/-- C4 counterexample. A tracked, previously-routed transcript (client
Acme-Corp) whose title changed so that it now matches a different client
(Internal): its old file exists at its prior location (the Acme-Corp
call-notes directory), all of the claim's hypotheses hold, yet the rename
transition does NOT fire — the code checks the CURRENT destination
directory (Internal) for the old file, finds nothing, and leaves state and
ledger untouched. -/
theorem claim_C4_counterexample :
    c4entry.routed = true ∧
    c4entry.title ≠ some (syncTitle c4doc) ∧
    fsExists c4state.files
      (pjoin (get_client_call_notes_dir "Acme-Corp") (c4entry.file.getD "")) = true ∧
    syncOne CLIENT_ROUTES "now" "2024-06-01" c4doc "D" [seg50] c4state = c4state :=
  ⟨rfl, by decide, by decide, rfl⟩

/-- C4 (corrected). For every tracked transcript whose stored title differs
from the current title, where the reroute branch does not apply, the rename
transition is governed by the old file's presence at the CURRENT destination
directory (per the current client match) when previously routed — not the
prior client's directory: when present there, the code writes the rendered
content under the new filename, removes the old file when its path differs,
and updates the ledger with the new title, the preserved routed flag, and
client set to the CURRENT match when routed (equal to the prior client only
when the match is unchanged) else none; when absent there, nothing happens
even if the prior client's directory still holds the file. -/
theorem claim_C4_amended (routes : List (List String × String)) (now today : String)
    (doc : Doc) (doc_id : String) (entries : List Segment) (s : SyncState)
    (tracked : TrackEntry)
    (hemp : entries.isEmpty = false)
    (hdone : is_meeting_done doc entries = true)
    (htracked : aget s.tracking doc_id = some tracked)
    (hnoreroute : b1cond tracked (syncClientFolder routes doc) = false)
    (hfile : pyTruthyS tracked.file = true)
    (htne : tracked.title ≠ some (syncTitle doc)) :
    syncOne routes now today doc doc_id entries s =
      (if fsExists s.files
          (pjoin (if tracked.routed then syncDestDir routes doc else INBOX_DIR)
            (tracked.file.getD "")) then
        { s with
          tracking := aset s.tracking doc_id
            { synced_at := now, routed := tracked.routed,
              client := if tracked.routed then syncClientFolder routes doc else none,
              file := some (syncFilename today doc), title := some (syncTitle doc) },
          files :=
            if (pjoin (if tracked.routed then syncDestDir routes doc else INBOX_DIR)
                  (tracked.file.getD "")) != syncFilepath routes today doc
            then fsRemove (fsWrite s.files (syncFilepath routes today doc)
                (build_content (syncTitle doc) doc entries))
              (pjoin (if tracked.routed then syncDestDir routes doc else INBOX_DIR)
                (tracked.file.getD ""))
            else fsWrite s.files (syncFilepath routes today doc)
              (build_content (syncTitle doc) doc entries),
          updated_count := s.updated_count + 1 }
      else s) := by
  have hb2 : b2cond tracked (syncTitle doc) = true := by
    unfold b2cond
    rw [hfile]
    simpa using htne
  exact syncOne_b2 routes now today doc doc_id entries s tracked hemp hdone htracked
    hnoreroute hb2

/-- C4 witness: the same changed-title transcript with the old filename
present at the CURRENT destination directory (Internal): the rename fires,
the ledger entry gets the new title, keeps routed=true, and its client
becomes the current match "Internal" (not the prior "Acme-Corp"). -/
theorem claim_C4_witness :
    aget (syncOne CLIENT_ROUTES "now" "2024-06-02" c4doc "D" [seg50] c4wstate).tracking "D" =
      some { synced_at := "now", routed := true, client := some "Internal",
             file := some "2024-02-02-internal-retro.md",
             title := some "internal retro" } ∧
    (syncOne CLIENT_ROUTES "now" "2024-06-02" c4doc "D" [seg50] c4wstate).updated_count = 1 := by
  have h := claim_C4_amended CLIENT_ROUTES "now" "2024-06-02" c4doc "D" [seg50] c4wstate
    c4entry (by decide) (by decide) rfl (by decide) (by decide) (by decide)
  rw [h]
  exact ⟨rfl, rfl⟩

/-! ## C8: untouched and never-removed ledger entries -/

/-- C8 (confirmed). For every ledger entry whose transcript id is absent
from the cache's transcripts (or present only with an empty segment list or
failing `is_meeting_done`), a sync run leaves that entry unchanged; the
iteration for an empty or unfinished transcript is the identity on the whole
state (so no file is written or deleted for that id); and ledger entries are
never removed by a run. -/
theorem claim_C8 (routes : List (List String × String)) (now today : String)
    (cache : CacheState) (tracking0 : List (String × TrackEntry)) (files0 : FS)
    (id : String) :
    ((∀ p ∈ cache.transcripts, p.1 = id →
        (p.2.isEmpty = true ∨
          is_meeting_done ((aget cache.documents p.1).getD emptyDoc) p.2 = false)) →
      aget (sync_transcripts routes now today cache tracking0 files0).tracking id =
        aget tracking0 id) ∧
    ((aget tracking0 id).isSome = true →
      (aget (sync_transcripts routes now today cache tracking0 files0).tracking id).isSome
        = true) ∧
    (∀ (doc : Doc) (entries : List Segment) (s : SyncState),
      entries.isEmpty = true ∨ is_meeting_done doc entries = false →
      syncOne routes now today doc id entries s = s) := by
  refine ⟨?_, ?_, ?_⟩
  · intro H
    unfold sync_transcripts
    exact sync_foldl_tracking_pres routes now today
      (fun k => (aget cache.documents k).getD emptyDoc) id cache.transcripts
      { tracking := tracking0, files := files0,
        new_count := 0, routed_count := 0, updated_count := 0 } H
  · intro h
    unfold sync_transcripts
    exact sync_foldl_tracking_isSome routes now today
      (fun k => (aget cache.documents k).getD emptyDoc) id cache.transcripts
      { tracking := tracking0, files := files0,
        new_count := 0, routed_count := 0, updated_count := 0 } h
  · intro doc entries s h
    exact syncOne_guard_noop routes now today doc id entries s h

/-- C8 witness: a cache holding only an unfinished transcript X and a ledger
with stubs for X and for Y (absent from the cache): Y's entry survives a run
unchanged, X's entry is never removed, and an iteration on empty segments is
the identity, all via `claim_C8`. -/
theorem claim_C8_witness :
    aget (sync_transcripts CLIENT_ROUTES "n" "2024-06-01" c8cache c8tracking []).tracking "Y"
      = aget c8tracking "Y" ∧
    (aget (sync_transcripts CLIENT_ROUTES "n" "2024-06-01" c8cache c8tracking []).tracking
      "X").isSome = true ∧
    syncOne CLIENT_ROUTES "n" "2024-06-01" emptyDoc "Y" []
      { tracking := c8tracking, files := [],
        new_count := 0, routed_count := 0, updated_count := 0 } =
      { tracking := c8tracking, files := [],
        new_count := 0, routed_count := 0, updated_count := 0 } := by
  refine ⟨(claim_C8 CLIENT_ROUTES "n" "2024-06-01" c8cache c8tracking [] "Y").1 (by decide),
    (claim_C8 CLIENT_ROUTES "n" "2024-06-01" c8cache c8tracking [] "X").2.1 (by decide),
    (claim_C8 CLIENT_ROUTES "n" "2024-06-01" c8cache c8tracking [] "Y").2.2 emptyDoc []
      _ (Or.inl rfl)⟩

/-! ## C10: the Untitled Meeting fallback is unreachable -/

/-- C10 (confirmed). Under the precondition that a transcript passed
`is_meeting_done`, the document's title is present and non-empty, so the
`'Untitled Meeting'` fallback default is unreachable: the loop's `title`
variable equals the document's own title; and every ledger entry an
iteration creates or rewrites carries `some` of that computed title (the
other iterations leave the entry as it was). -/
theorem claim_C10 (doc : Doc) (entries : List Segment) :
    (is_meeting_done doc entries = true →
      ∃ t, doc.title = some t ∧ t ≠ "" ∧ syncTitle doc = t) ∧
    (∀ (routes : List (List String × String)) (now today : String) (doc_id : String)
      (s : SyncState),
      aget (syncOne routes now today doc doc_id entries s).tracking doc_id
          = aget s.tracking doc_id ∨
      ∃ e, aget (syncOne routes now today doc doc_id entries s).tracking doc_id = some e ∧
        e.title = some (syncTitle doc)) := by
  constructor
  · intro hdone
    rcases is_meeting_done_title doc entries hdone with ⟨t, ht, htne⟩
    refine ⟨t, ht, htne, ?_⟩
    rw [syncTitle, ht]
    rfl
  · intro routes now today doc_id s
    by_cases hemp : entries.isEmpty = true
    · left
      rw [syncOne_guard_noop _ _ _ _ _ _ _ (Or.inl hemp)]
    · have hemp' := bool_eq_false hemp
      by_cases hdone : is_meeting_done doc entries = true
      · cases hag : aget s.tracking doc_id with
        | none =>
          right
          rw [syncOne_untracked routes now today doc doc_id entries s hemp' hdone hag]
          exact ⟨_, aget_aset_self _ _ _, rfl⟩
        | some tracked =>
          by_cases hb1 : b1cond tracked (syncClientFolder routes doc) = true
          · rw [syncOne_b1 routes now today doc doc_id entries s tracked hemp' hdone hag hb1]
            by_cases hfs : fsExists s.files (pjoin INBOX_DIR (tracked.file.getD "")) = true
            · right
              simp only [hfs, reduceIte]
              exact ⟨_, aget_aset_self _ _ _, rfl⟩
            · left
              simp only [bool_eq_false hfs, Bool.false_eq_true, reduceIte]
              exact hag
          · have hb1' := bool_eq_false hb1
            by_cases hb2 : b2cond tracked (syncTitle doc) = true
            · rw [syncOne_b2 routes now today doc doc_id entries s tracked hemp' hdone hag
                hb1' hb2]
              by_cases hfs : fsExists s.files
                  (pjoin (if tracked.routed then syncDestDir routes doc else INBOX_DIR)
                    (tracked.file.getD "")) = true
              · right
                simp only [hfs, reduceIte]
                exact ⟨_, aget_aset_self _ _ _, rfl⟩
              · left
                simp only [bool_eq_false hfs, Bool.false_eq_true, reduceIte]
                exact hag
            · left
              rw [syncOne_inert routes now today doc doc_id entries s tracked hemp' hdone hag
                hb1' (bool_eq_false hb2)]
              exact hag
      · left
        rw [syncOne_guard_noop _ _ _ _ _ _ _ (Or.inr (bool_eq_false hdone))]

/-- C10 witness: a concrete completed document — its title is present,
non-empty, and is exactly what the sync loop uses, via `claim_C10`. -/
theorem claim_C10_witness :
    is_meeting_done c2docA [seg50] = true ∧
    (∃ t, c2docA.title = some t ∧ t ≠ "" ∧ syncTitle c2docA = t) :=
  ⟨by decide, (claim_C10 c2docA [seg50]).1 (by decide)⟩
